import Mathlib

/-!
Verification of `snowflake_retention_sync.py`: a shallow embedding of the
script's data model and operations, followed by theorems about its
documented behaviour.

The warehouse client returns result rows whose cells are `None`, strings,
or integers (the columns this script reads are of those shapes); rows are
modelled as `List Cell`.  External systems (the warehouse catalog listing
and the metadata-catalog emit endpoint) are modelled as explicit
environment data passed to the functions that consult them.
-/

/-- A value in one cell of a warehouse result row. -/
inductive Cell where
  | none
  | str (s : String)
  | int (n : Int)
deriving DecidableEq, Repr

/-- Python truthiness of a cell (used by `str(row[0]) if row[0] else None`):
`None`, the empty string and `0` are falsy. -/
def Cell.truthy : Cell → Bool
  | .none => false
  | .str s => s ≠ ""
  | .int n => n ≠ 0

/-- Python `str()` applied to a cell. -/
def Cell.toStr : Cell → String
  | .none => "None"
  | .str s => s
  | .int n => toString n

/-- Python `str.upper()`: character-wise uppercasing. -/
def pyUpper (s : String) : String :=
  String.mk (s.data.map Char.toUpper)

/-- Python `str.lower()`: character-wise lowercasing. -/
def pyLower (s : String) : String :=
  String.mk (s.data.map Char.toLower)

/-- Value of a nonempty list of decimal digits. -/
def decDigitsVal (cs : List Char) : Nat :=
  cs.foldl (fun a c => a * 10 + (c.toNat - 48)) 0

/-- Parse a nonempty all-digit character list, else fail. -/
def parseDecDigits (cs : List Char) : Option Nat :=
  if cs ≠ [] ∧ cs.all (fun c => c.isDigit) then some (decDigitsVal cs) else Option.none

/-- Python `int(s)` on a string: surrounding whitespace is stripped, an
optional sign is allowed, then a nonempty run of decimal digits; any other
shape raises `ValueError`, modelled as `Option.none`. -/
def pyIntOfString (s : String) : Option Int :=
  match s.trim.toList with
  | '-' :: rest => (parseDecDigits rest).map (fun n => -(n : Int))
  | '+' :: rest => (parseDecDigits rest).map (fun n => (n : Int))
  | cs => (parseDecDigits cs).map (fun n => (n : Int))

/-- Python `int(value)` on a cell: `None` raises `TypeError`, strings are
parsed as above, integers pass through.  Failure is `Option.none`, matching
the `except (ValueError, TypeError)` handlers in the script. -/
def pyIntOfCell : Cell → Option Int
  | .none => Option.none
  | .str s => pyIntOfString s
  | .int n => some n

/-- The `SnowflakeTable` dataclass.  The name cells are stored as returned
by the warehouse (the script does not convert them before storing). -/
structure SnowflakeTable where
  database : Cell
  schema : Cell
  table : Cell
  retention_days : Int
  created_on : Option String := Option.none
  row_count : Option Int := Option.none
  bytes : Option Int := Option.none
deriving DecidableEq, Repr

/-- `retention_value = row[10] if len(row) > 10 else None` followed by the
default logic of `get_tables_with_retention`: `None` or `''` gives 1, an
unparsable value gives 1, otherwise `int(retention_value)`. -/
def retentionOfRow (row : List Cell) : Int :=
  let retention_value := row.getD 10 Cell.none
  if retention_value = Cell.none ∨ retention_value = Cell.str "" then 1
  else
    match pyIntOfCell retention_value with
    | some n => n
    | Option.none => 1

/-- The optional-integer-field logic used for `rows` (column 7) and `bytes`
(column 8): start from `None`, and only when the cell is neither `None` nor
`''` try `int(...)`, keeping `None` on failure. -/
def optIntField (row : List Cell) (idx : Nat) : Option Int :=
  let v := row.getD idx Cell.none
  if v ≠ Cell.none ∧ v ≠ Cell.str "" then pyIntOfCell v else Option.none

/-- `created_on=str(row[0]) if row[0] else None`. -/
def createdOnOfRow (row : List Cell) : Option String :=
  let c := row.getD 0 Cell.none
  if c.truthy then some c.toStr else Option.none

/-- Outcome of processing one warehouse row: a record is built, or the
row is skipped after the handler logs the failure, or an exception
escapes the handler and aborts the whole run. -/
inductive RowResult where
  | table (t : SnowflakeTable)
  | skip
  | fatal
deriving DecidableEq, Repr

/-- One iteration of the row loop of `get_tables_with_retention`
(lines 158-200).  The guarded accesses `row[7]`, `row[8]`, `row[10]` fall
back to `None` when the row is short; the unguarded accesses
`row[0]`..`row[3]` raise `IndexError` on rows with fewer than 4 columns.
For rows of length 2 or 3 the `except (IndexError, ValueError)` handler
logs `row[1]` (which exists) and skips the row; for rows of length 0 or 1
the handler's own log line `f"Error parsing table {row[1]}: ..."`
(line 199) raises a fresh `IndexError` that escapes the handler — and the
`except ProgrammingError` below it — aborting the whole run. -/
def parseRow (row : List Cell) : RowResult :=
  if 4 ≤ row.length then
    RowResult.table
      { database := row.getD 2 Cell.none
        schema := row.getD 3 Cell.none
        table := row.getD 1 Cell.none
        retention_days := retentionOfRow row
        created_on := createdOnOfRow row
        row_count := optIntField row 7
        bytes := optIntField row 8 }
  else if 2 ≤ row.length then RowResult.skip
  else RowResult.fatal

/-- `get_tables_with_retention` applied to the rows of
`SHOW TABLES IN database.schema`: each row becomes a table record, rows
whose failure the handler survives are skipped, and a row whose failure
escapes the handler aborts the call (`Except.error`, discarding the
records accumulated so far, as the raised exception does). -/
def get_tables_with_retention : List (List Cell) → Except Unit (List SnowflakeTable)
  | [] => Except.ok []
  | row :: rest =>
    match parseRow row with
    | RowResult.table t => (get_tables_with_retention rest).map (fun ts => t :: ts)
    | RowResult.skip => get_tables_with_retention rest
    | RowResult.fatal => Except.error ()

/-- `get_databases` (lines 104-124): the discovered names, restricted to
the allow-list when that list is nonempty (Python list truthiness). -/
def get_databases (all_databases : List String) (database_filter : List String) : List String :=
  if database_filter ≠ [] then
    all_databases.filter (fun db => database_filter.contains db)
  else
    all_databases

/-- `get_schemas` (lines 126-144): same restriction with the schema
allow-list. -/
def get_schemas (all_schemas : List String) (schema_filter : List String) : List String :=
  if schema_filter ≠ [] then
    all_schemas.filter (fun s => schema_filter.contains s)
  else
    all_schemas

/-- The warehouse as seen through the queries the script issues:
`SHOW DATABASES` names, `SHOW SCHEMAS IN DATABASE db` names, and the rows
of `SHOW TABLES IN db.schema`. -/
structure Warehouse where
  databases : List String
  schemas : String → List String
  tables : String → String → List (List Cell)

/-- The inner loop of `extract_all_retention_data` (lines 220-226): walk
the filtered schemas of one database, skip any schema whose upper-cased
name is in `['INFORMATION_SCHEMA']`, collect the parsed tables, and let
an escaped per-row exception propagate. -/
def extractSchemas (wh : Warehouse) (database : String) :
    List String → Except Unit (List SnowflakeTable)
  | [] => Except.ok []
  | schema :: rest =>
    if ["INFORMATION_SCHEMA"].contains (pyUpper schema) then
      extractSchemas wh database rest
    else
      match get_tables_with_retention (wh.tables database schema) with
      | Except.ok tables => (extractSchemas wh database rest).map (fun ts => tables ++ ts)
      | Except.error e => Except.error e

/-- The outer loop of `extract_all_retention_data` (lines 217-226): walk
the filtered databases, letting an escaped per-row exception propagate. -/
def extractDatabases (wh : Warehouse) (schema_filter : List String) :
    List String → Except Unit (List SnowflakeTable)
  | [] => Except.ok []
  | database :: rest =>
    match extractSchemas wh database (get_schemas (wh.schemas database) schema_filter) with
    | Except.ok tables =>
      (extractDatabases wh schema_filter rest).map (fun ts => tables ++ ts)
    | Except.error e => Except.error e

/-- `extract_all_retention_data` (lines 211-229): the two loops above over
the filtered databases; `Except.error` models an exception escaping the
extractor (it reaches the fatal handler of `main`). -/
def extract_all_retention_data (wh : Warehouse) (database_filter schema_filter : List String) :
    Except Unit (List SnowflakeTable) :=
  extractDatabases wh schema_filter (get_databases wh.databases database_filter)

/-- A copy of a warehouse in which every `information_schema` schema
(case-insensitive) holds no table rows; used to state that such schemas
are never fetched. -/
def zeroInfoSchemaTables (wh : Warehouse) : Warehouse :=
  { wh with
    tables := fun database schema =>
      if ["INFORMATION_SCHEMA"].contains (pyUpper schema) then []
      else wh.tables database schema }

/-- `RETENTION_PROPERTY_ID` of `DataHubRetentionSyncer`. -/
def RETENTION_PROPERTY_ID : String := "io.acryl.dataManagement.retentionPeriodDays"

/-- `retention_property_urn` built in `sync_table` (line 262). -/
def retention_property_urn : String :=
  "urn:li:structuredProperty:" ++ RETENTION_PROPERTY_ID

/-- `make_dataset_urn` of the catalog SDK: a deterministic string built
from platform, dataset name and environment. -/
def make_dataset_urn (platform name env : String) : String :=
  "urn:li:dataset:(urn:li:dataPlatform:" ++ platform ++ "," ++ name ++ "," ++ env ++ ")"

/-- `dataset_name = f"{table.database}.{table.schema}.{table.table}".lower()`
(line 250): f-string interpolation applies `str()` to each stored cell. -/
def dataset_name (t : SnowflakeTable) : String :=
  pyLower (t.database.toStr ++ "." ++ t.schema.toStr ++ "." ++ t.table.toStr)

/-- The URN built in `sync_table` (lines 251-255). -/
def sync_table_urn (env : String) (t : SnowflakeTable) : String :=
  make_dataset_urn "snowflake" (dataset_name t) env

/-- One write issued to the catalog: target URN, structured-property URN,
and the numeric payload. -/
structure WriteCall where
  urn : String
  key : String
  value : Float

/-- `sync_table` (lines 246-277): builds the URN and one
structured-property patch whose value is `float(table.retention_days)`,
emits it, and returns whether the emit succeeded; exceptions from the emit
are caught and reported as `false`.  The emit outcome comes from the
environment oracle `emitOk`. -/
def sync_table (emitOk : WriteCall → Bool) (env : String) (t : SnowflakeTable) :
    Bool × List WriteCall :=
  let w : WriteCall :=
    { urn := sync_table_urn env t
      key := retention_property_urn
      value := Float.ofInt t.retention_days }
  (emitOk w, [w])

/-- The `stats` dictionary of `sync_all`. -/
structure SyncStats where
  success : Nat
  failed : Nat
deriving DecidableEq, Repr

/-- `sync_all` (lines 279-290): loop over the tables, counting per-table
outcomes, accumulating the writes issued. -/
def sync_all (emitOk : WriteCall → Bool) (env : String) (tables : List SnowflakeTable) :
    SyncStats × List WriteCall :=
  tables.foldl
    (fun acc t =>
      let r := sync_table emitOk env t
      (if r.1 then { acc.1 with success := acc.1.success + 1 }
       else { acc.1 with failed := acc.1.failed + 1 },
       acc.2 ++ r.2))
    ({ success := 0, failed := 0 }, [])

/-- The parsed command-line / environment configuration of `main`. -/
structure Config where
  snowflake_account : Option String
  snowflake_user : Option String
  snowflake_password : Option String
  snowflake_role : Option String := Option.none
  snowflake_warehouse : Option String := Option.none
  datahub_url : Option String
  datahub_token : Option String
  datahub_env : String := "PROD"
  database_filter : Option String := Option.none
  schema_filter : Option String := Option.none
  dry_run : Bool := false
  verbose : Bool := false

/-- Python truthiness of an optional string argument (absent or empty is
falsy). -/
def optTruthy : Option String → Bool
  | Option.none => false
  | some s => s ≠ ""

/-- The `all([...])` required-argument check of `main` (lines 332-333). -/
def requiredOk (cfg : Config) : Bool :=
  optTruthy cfg.snowflake_account && optTruthy cfg.snowflake_user &&
    optTruthy cfg.snowflake_password && optTruthy cfg.datahub_url &&
      optTruthy cfg.datahub_token

/-- `args.x_filter.split(',') if args.x_filter else None` (lines 338-339)
combined with `filter or []` in the extractor constructor (lines 75-76). -/
def parseFilterArg : Option String → List String
  | some s => if s ≠ "" then s.splitOn "," else []
  | Option.none => []

/-- The external world `main` runs against: whether the warehouse
connection attempt succeeds, the warehouse contents, and the emit
outcome oracle. -/
structure Env where
  connectOk : Bool
  wh : Warehouse
  emitOk : WriteCall → Bool

/-- Observable outcome of one run of `main`: process exit code, what was
extracted (`Option.none` when extraction never ran), whether the
retention-day histogram was logged, whether a syncer was constructed, the
writes issued to the catalog, and the final stats. -/
structure MainResult where
  exitCode : Nat
  extracted : Option (List SnowflakeTable)
  histogramLogged : Bool
  syncerConstructed : Bool
  writeCalls : List WriteCall
  stats : Option SyncStats

/-- `main` (lines 297-393): validate required arguments (exit 1 when any
is missing), connect (a connection failure raises, is caught by the outer
handler, and exits 1), extract (an exception escaping the extractor, such
as the `IndexError` re-raised in the row handler's log line, is caught by
the same outer handler and exits 1), return early when nothing was found, log
the histogram, stop before any sync in dry-run mode, otherwise construct
the syncer and sync everything.  Normal completion exits 0. -/
def runMain (cfg : Config) (env : Env) : MainResult :=
  if ¬ requiredOk cfg then
    { exitCode := 1, extracted := Option.none, histogramLogged := false,
      syncerConstructed := false, writeCalls := [], stats := Option.none }
  else
    let database_filter := parseFilterArg cfg.database_filter
    let schema_filter := parseFilterArg cfg.schema_filter
    if ¬ env.connectOk then
      { exitCode := 1, extracted := Option.none, histogramLogged := false,
        syncerConstructed := false, writeCalls := [], stats := Option.none }
    else
      match extract_all_retention_data env.wh database_filter schema_filter with
      | Except.error _ =>
        { exitCode := 1, extracted := Option.none, histogramLogged := false,
          syncerConstructed := false, writeCalls := [], stats := Option.none }
      | Except.ok tables =>
        if tables = [] then
          { exitCode := 0, extracted := some tables, histogramLogged := false,
            syncerConstructed := false, writeCalls := [], stats := Option.none }
        else if cfg.dry_run then
          { exitCode := 0, extracted := some tables, histogramLogged := true,
            syncerConstructed := false, writeCalls := [], stats := Option.none }
        else
          let r := sync_all env.emitOk cfg.datahub_env tables
          { exitCode := 0, extracted := some tables, histogramLogged := true,
            syncerConstructed := true, writeCalls := r.2, stats := some r.1 }

/-! ## Witness inputs -/

/-- A 4-column row: the retention cell (column 10) is missing. -/
def rowMissingRetention : List Cell :=
  [Cell.int 20240101, Cell.str "T", Cell.str "DB", Cell.str "SCH"]

/-- The record built from `rowMissingRetention`. -/
def tabMissingRetention : SnowflakeTable :=
  { database := Cell.str "DB", schema := Cell.str "SCH", table := Cell.str "T",
    retention_days := 1, created_on := some "20240101" }

/-- An 11-column row with integer retention 5 in column 10. -/
def rowNumericRetention : List Cell :=
  [Cell.int 20240101, Cell.str "T", Cell.str "DB", Cell.str "SCH", Cell.str "TABLE",
   Cell.none, Cell.none, Cell.int 42, Cell.int 1000, Cell.str "OWNER", Cell.int 5]

/-- The record built from `rowNumericRetention`. -/
def tabNumericRetention : SnowflakeTable :=
  { database := Cell.str "DB", schema := Cell.str "SCH", table := Cell.str "T",
    retention_days := 5, created_on := some "20240101",
    row_count := some 42, bytes := some 1000 }

/-- A 9-column row whose rows/bytes cells (columns 7, 8) are unparsable. -/
def rowBadOptionalFields : List Cell :=
  [Cell.int 1, Cell.str "T", Cell.str "DB", Cell.str "SCH", Cell.str "TABLE",
   Cell.none, Cell.none, Cell.str "abc", Cell.str "x1"]

/-- A small warehouse: one database, one ordinary schema and an
`information_schema`, one table row. -/
def wh0 : Warehouse :=
  { databases := ["DB"]
    schemas := fun _ => ["SCH", "information_schema"]
    tables := fun _ _ => [rowNumericRetention] }

/-- An environment whose connection attempt succeeds and whose emits all
succeed. -/
def env0 : Env :=
  { connectOk := true, wh := wh0, emitOk := fun _ => true }

/-- An environment whose connection attempt fails. -/
def envBad : Env :=
  { connectOk := false, wh := wh0, emitOk := fun _ => true }

/-- A warehouse holding a single-cell table row, on which the row
handler itself raises. -/
def whFatal : Warehouse :=
  { databases := ["DB"]
    schemas := fun _ => ["SCH"]
    tables := fun _ _ => [[Cell.none], rowNumericRetention] }

/-- An environment that connects fine but serves the crashing row. -/
def envFatal : Env :=
  { connectOk := true, wh := whFatal, emitOk := fun _ => true }

/-- A complete configuration with the dry-run flag set. -/
def cfgDry : Config :=
  { snowflake_account := some "acct", snowflake_user := some "user",
    snowflake_password := some "pw", datahub_url := some "https://gms",
    datahub_token := some "tok", dry_run := true }

/-- A complete configuration without the dry-run flag. -/
def cfgLive : Config :=
  { snowflake_account := some "acct", snowflake_user := some "user",
    snowflake_password := some "pw", datahub_url := some "https://gms",
    datahub_token := some "tok" }

/-- A configuration missing the catalog token. -/
def cfgBad : Config :=
  { snowflake_account := some "acct", snowflake_user := some "user",
    snowflake_password := some "pw", datahub_url := some "https://gms",
    datahub_token := Option.none }

/-- A table record with upper-case name cells. -/
def tabUpperCase : SnowflakeTable :=
  { database := Cell.str "DB", schema := Cell.str "SCH", table := Cell.str "My_Table",
    retention_days := 3 }

/-- The same table record with the name cells lower-cased. -/
def tabLowerCase : SnowflakeTable :=
  { database := Cell.str "db", schema := Cell.str "sch", table := Cell.str "my_table",
    retention_days := 3 }

/-! ## Theorems -/

/-- C1: every `SnowflakeTable` record built by `get_tables_with_retention`
from a row whose retention cell (column 10) is missing (row too short or
`None`) or the empty string, or unparsable as an integer, has
`retention_days` exactly 1. -/
theorem retention_defaults_to_one
    (row : List Cell) (t : SnowflakeTable)
    (hp : parseRow row = RowResult.table t)
    (h : row.getD 10 Cell.none = Cell.none ∨ row.getD 10 Cell.none = Cell.str "" ∨
      pyIntOfCell (row.getD 10 Cell.none) = Option.none) :
    t.retention_days = 1 := by
  unfold parseRow at hp
  split at hp
  · simp only [RowResult.table.injEq] at hp
    subst hp
    show retentionOfRow row = 1
    rcases h with h | h | h
    · simp only [retentionOfRow]
      rw [h]
      simp
    · simp only [retentionOfRow]
      rw [h]
      simp
    · simp only [retentionOfRow]
      rw [h]
      split
      · rfl
      · rfl
  · split at hp
    · exact absurd hp (by simp)
    · exact absurd hp (by simp)

/-- Witness for C1 at a concrete 4-column row. -/
theorem retention_defaults_to_one_witness :
    parseRow rowMissingRetention = RowResult.table tabMissingRetention ∧
      tabMissingRetention.retention_days = 1 :=
  ⟨by decide,
   retention_defaults_to_one rowMissingRetention tabMissingRetention (by decide)
     (Or.inl (by decide))⟩

/-- C2: a row whose retention cell holds an integer yields
`retention_days` equal to that integer, and the payload of the write that
`sync_table` issues for the record is that integer cast to floating
point. -/
theorem numeric_retention_preserved
    (row : List Cell) (t : SnowflakeTable) (n : Int)
    (hp : parseRow row = RowResult.table t)
    (h : row.getD 10 Cell.none = Cell.int n)
    (emitOk : WriteCall → Bool) (env : String) :
    t.retention_days = n ∧
      ((sync_table emitOk env t).2).map WriteCall.value = [Float.ofInt n] := by
  have ht : t.retention_days = n := by
    unfold parseRow at hp
    split at hp
    · simp only [RowResult.table.injEq] at hp
      subst hp
      show retentionOfRow row = n
      simp only [retentionOfRow]
      rw [h]
      simp [pyIntOfCell]
    · split at hp
      · exact absurd hp (by simp)
      · exact absurd hp (by simp)
  exact ⟨ht, by simp [sync_table, ht]⟩

/-- Witness for C2 at a concrete 11-column row with retention 5. -/
theorem numeric_retention_preserved_witness :
    parseRow rowNumericRetention = RowResult.table tabNumericRetention ∧
      tabNumericRetention.retention_days = 5 ∧
      ((sync_table (fun _ => true) "PROD" tabNumericRetention).2).map WriteCall.value =
        [Float.ofInt 5] :=
  ⟨by decide,
   (numeric_retention_preserved rowNumericRetention tabNumericRetention 5 (by decide)
       (by decide) (fun _ => true) "PROD").1,
   (numeric_retention_preserved rowNumericRetention tabNumericRetention 5 (by decide)
       (by decide) (fun _ => true) "PROD").2⟩

/-- C10: a row with at least the 4 unconditionally-accessed columns always
yields a record, whatever the rows/bytes cells (columns 7 and 8) hold; a
parse failure there only sets the corresponding optional field to `None`,
and the record keeps its integer `retention_days`. -/
theorem optional_fields_never_skip
    (row : List Cell) (hlen : 4 ≤ row.length) :
    ∃ t, parseRow row = RowResult.table t ∧
      (pyIntOfCell (row.getD 7 Cell.none) = Option.none → t.row_count = Option.none) ∧
      (pyIntOfCell (row.getD 8 Cell.none) = Option.none → t.bytes = Option.none) ∧
      t.retention_days = retentionOfRow row := by
  refine
    ⟨{ database := row.getD 2 Cell.none
       schema := row.getD 3 Cell.none
       table := row.getD 1 Cell.none
       retention_days := retentionOfRow row
       created_on := createdOnOfRow row
       row_count := optIntField row 7
       bytes := optIntField row 8 }, ?_, ?_, ?_, ?_⟩
  · unfold parseRow
    rw [if_pos hlen]
  · intro h
    show optIntField row 7 = Option.none
    simp only [optIntField]
    split
    · exact h
    · rfl
  · intro h
    show optIntField row 8 = Option.none
    simp only [optIntField]
    split
    · exact h
    · rfl
  · rfl

/-- Witness for C10 at a concrete row with unparsable rows/bytes cells. -/
theorem optional_fields_never_skip_witness :
    4 ≤ rowBadOptionalFields.length ∧
      ∃ t, parseRow rowBadOptionalFields = RowResult.table t ∧
        (pyIntOfCell (rowBadOptionalFields.getD 7 Cell.none) = Option.none →
          t.row_count = Option.none) ∧
        (pyIntOfCell (rowBadOptionalFields.getD 8 Cell.none) = Option.none →
          t.bytes = Option.none) ∧
        t.retention_days = retentionOfRow rowBadOptionalFields :=
  ⟨by decide, optional_fields_never_skip rowBadOptionalFields (by decide)⟩

/-- C3: a nonempty allow-list restricts the discovered database (resp.
schema) names to exactly those in the allow-list, kept in discovery order
(a sublist of the discovered list); an absent or empty allow-list leaves
the discovered names unchanged. -/
theorem filters_restrict_to_intersection
    (all_databases all_schemas database_filter schema_filter : List String) :
    (database_filter ≠ [] →
      get_databases all_databases database_filter =
        all_databases.filter (fun db => database_filter.contains db)) ∧
    (database_filter = [] →
      get_databases all_databases database_filter = all_databases) ∧
    List.Sublist (get_databases all_databases database_filter) all_databases ∧
    (∀ x, x ∈ get_databases all_databases database_filter ↔
      x ∈ all_databases ∧ (database_filter = [] ∨ x ∈ database_filter)) ∧
    (schema_filter ≠ [] →
      get_schemas all_schemas schema_filter =
        all_schemas.filter (fun s => schema_filter.contains s)) ∧
    (schema_filter = [] →
      get_schemas all_schemas schema_filter = all_schemas) ∧
    List.Sublist (get_schemas all_schemas schema_filter) all_schemas ∧
    (∀ x, x ∈ get_schemas all_schemas schema_filter ↔
      x ∈ all_schemas ∧ (schema_filter = [] ∨ x ∈ schema_filter)) := by
  refine ⟨fun h => ?_, fun h => ?_, ?_, fun x => ?_, fun h => ?_, fun h => ?_, ?_, fun x => ?_⟩
  · simp [get_databases, h]
  · simp [get_databases, h]
  · unfold get_databases
    split
    · exact List.filter_sublist all_databases
    · exact List.Sublist.refl all_databases
  · unfold get_databases
    split
    · next h => simp [List.mem_filter, h]
    · next h =>
      simp only [ne_eq, not_not] at h
      simp [h]
  · simp [get_schemas, h]
  · simp [get_schemas, h]
  · unfold get_schemas
    split
    · exact List.filter_sublist all_schemas
    · exact List.Sublist.refl all_schemas
  · unfold get_schemas
    split
    · next h => simp [List.mem_filter, h]
    · next h =>
      simp only [ne_eq, not_not] at h
      simp [h]

/-- Witness for C3: a nonempty database allow-list keeps exactly its
members in discovery order; an empty schema allow-list keeps everything. -/
theorem filters_restrict_to_intersection_witness :
    get_databases ["ANALYTICS", "RAW", "DEV"] ["RAW", "PROD"] = ["RAW"] ∧
      get_schemas ["PUBLIC", "STAGING"] [] = ["PUBLIC", "STAGING"] :=
  ⟨by
    rw [(filters_restrict_to_intersection ["ANALYTICS", "RAW", "DEV"] ["PUBLIC", "STAGING"]
        ["RAW", "PROD"] []).1 (by decide)]
    decide,
   (filters_restrict_to_intersection ["ANALYTICS", "RAW", "DEV"] ["PUBLIC", "STAGING"]
      ["RAW", "PROD"] []).2.2.2.2.2.1 rfl⟩

/-- Emptying the `information_schema` schemas does not change the schema
loop: the skip fires exactly on the schemas the emptying touches. -/
theorem extractSchemas_zeroInfo (wh : Warehouse) (database : String) (schemas : List String) :
    extractSchemas (zeroInfoSchemaTables wh) database schemas =
      extractSchemas wh database schemas := by
  induction schemas with
  | nil => rfl
  | cons schema rest ih =>
    unfold extractSchemas
    by_cases h : pyUpper schema = "INFORMATION_SCHEMA"
    · simp [h, ih]
    · have ht : (zeroInfoSchemaTables wh).tables database schema =
          wh.tables database schema := by
        simp [zeroInfoSchemaTables, h]
      rw [ht, ih]

/-- Emptying the `information_schema` schemas does not change the
database loop either. -/
theorem extractDatabases_zeroInfo (wh : Warehouse) (schema_filter : List String)
    (databases : List String) :
    extractDatabases (zeroInfoSchemaTables wh) schema_filter databases =
      extractDatabases wh schema_filter databases := by
  induction databases with
  | nil => rfl
  | cons database rest ih =>
    unfold extractDatabases
    rw [show (zeroInfoSchemaTables wh).schemas = wh.schemas from rfl,
      extractSchemas_zeroInfo, ih]

/-- C4: the extraction result never depends on the table rows of any
schema whose name upper-cases to INFORMATION_SCHEMA: emptying all such
schemas in the warehouse leaves the result unchanged, whatever the
allow-lists say, so such schemas are never fetched and contribute no
records. -/
theorem information_schema_never_fetched
    (wh : Warehouse) (database_filter schema_filter : List String) :
    extract_all_retention_data wh database_filter schema_filter =
      extract_all_retention_data (zeroInfoSchemaTables wh) database_filter schema_filter := by
  unfold extract_all_retention_data
  rw [show (zeroInfoSchemaTables wh).databases = wh.databases from rfl,
    extractDatabases_zeroInfo]

/-- The loop of `sync_all`, from an arbitrary accumulator: it adds the
number of successful tables to `success`, the number of failed tables to
`failed`, and appends every write issued. -/
theorem sync_all_foldl_spec (emitOk : WriteCall → Bool) (env : String)
    (tables : List SnowflakeTable) (s : SyncStats) (ws : List WriteCall) :
    tables.foldl
      (fun acc t =>
        let r := sync_table emitOk env t
        (if r.1 then { acc.1 with success := acc.1.success + 1 }
         else { acc.1 with failed := acc.1.failed + 1 },
         acc.2 ++ r.2))
      (s, ws) =
    ({ success := s.success + (tables.filter (fun t => (sync_table emitOk env t).1)).length,
       failed := s.failed + (tables.filter (fun t => !(sync_table emitOk env t).1)).length },
     ws ++ tables.flatMap (fun t => (sync_table emitOk env t).2)) := by
  induction tables generalizing s ws with
  | nil => simp
  | cons t rest ih =>
    simp only [List.foldl_cons, List.filter_cons, List.flatMap_cons]
    by_cases h : (sync_table emitOk env t).1
    · rw [ih]
      simp only [h, if_pos, Prod.mk.injEq, SyncStats.mk.injEq]
      refine ⟨⟨?_, ?_⟩, ?_⟩
      · simp [h]
        omega
      · simp [h]
      · simp [List.append_assoc]
    · rw [ih]
      simp only [h, if_neg, Prod.mk.injEq, SyncStats.mk.injEq]
      refine ⟨⟨?_, ?_⟩, ?_⟩
      · simp [h]
      · simp [h]
        omega
      · simp [List.append_assoc]

/-- C6: the stats returned by `sync_all` count exactly the tables for
which `sync_table` reported success, resp. failure, and the two counts sum
to the number of input tables. -/
theorem stats_count_outcomes (emitOk : WriteCall → Bool) (env : String)
    (tables : List SnowflakeTable) :
    (sync_all emitOk env tables).1.success =
      (tables.filter (fun t => (sync_table emitOk env t).1)).length ∧
    (sync_all emitOk env tables).1.failed =
      (tables.filter (fun t => !(sync_table emitOk env t).1)).length ∧
    (sync_all emitOk env tables).1.success + (sync_all emitOk env tables).1.failed =
      tables.length := by
  unfold sync_all
  rw [sync_all_foldl_spec]
  refine ⟨by simp, by simp, ?_⟩
  simp only [Nat.zero_add]
  exact (List.length_eq_length_filter_add (fun t => (sync_table emitOk env t).1)).symm

/-- C7 fails on the code at rows with fewer than 2 cells: the parse
failure is not caught-and-skipped — the handler’s own log line `row[1]`
(line 199) raises a fresh `IndexError` that escapes both handlers, the
remaining rows of the batch are not processed, and the run aborts with
exit code 1 and no writes, while the same batch without the bad row is
processed normally. -/
theorem short_row_parse_failure_aborts_run :
    parseRow [Cell.none] = RowResult.fatal ∧
      get_tables_with_retention [[Cell.none], rowNumericRetention] = Except.error () ∧
      get_tables_with_retention [rowNumericRetention] =
        Except.ok [tabNumericRetention] ∧
      (runMain cfgLive envFatal).exitCode = 1 ∧
      (runMain cfgLive envFatal).writeCalls = [] :=
  ⟨rfl, rfl, rfl, rfl, rfl⟩

/-- Character-wise lowercasing distributes over string append. -/
theorem pyLower_append (a b : String) : pyLower (a ++ b) = pyLower a ++ pyLower b := by
  cases a with
  | mk da =>
    cases b with
    | mk db =>
      show pyLower (String.mk (da ++ db)) = _
      simp only [pyLower, List.map_append]
      rfl

/-- C5: a run with the dry-run flag set issues zero writes to the catalog
and constructs no syncer; when the required configuration is present, the
connection succeeds and extraction completes, it still performs the
extraction, and it logs the retention histogram whenever any table was
extracted. -/
theorem dry_run_issues_no_writes (cfg : Config) (env : Env)
    (hdry : cfg.dry_run = true) :
    (runMain cfg env).writeCalls = [] ∧
    (runMain cfg env).syncerConstructed = false ∧
    (requiredOk cfg = true → env.connectOk = true →
      ∀ tables, extract_all_retention_data env.wh (parseFilterArg cfg.database_filter)
          (parseFilterArg cfg.schema_filter) = Except.ok tables →
        (runMain cfg env).extracted = some tables ∧
        (tables ≠ [] → (runMain cfg env).histogramLogged = true)) := by
  unfold runMain
  by_cases h1 : requiredOk cfg = true
  · by_cases h2 : env.connectOk = true
    · cases hex : extract_all_retention_data env.wh (parseFilterArg cfg.database_filter)
        (parseFilterArg cfg.schema_filter) with
      | error e => simp [h1, h2, hex]
      | ok tables =>
        by_cases h3 : tables = []
        · simp [h1, h2, hex, h3, hdry]
        · simp [h1, h2, hex, h3, hdry]
    · simp [h1, h2]
  · simp [h1]

/-- Witness for C5 against a concrete warehouse holding one table. -/
theorem dry_run_issues_no_writes_witness :
    cfgDry.dry_run = true ∧
      (runMain cfgDry env0).writeCalls = [] ∧
      (runMain cfgDry env0).syncerConstructed = false :=
  ⟨rfl, (dry_run_issues_no_writes cfgDry env0 rfl).1,
   (dry_run_issues_no_writes cfgDry env0 rfl).2.1⟩

/-- C8: the run exits with code 1 when a required argument is missing,
when the connection attempt fails, or when a fatal error escapes the
extractor; it exits with code 0 when extraction completes. -/
theorem exit_code_policy (cfg : Config) (env : Env) :
    (requiredOk cfg = false → (runMain cfg env).exitCode = 1) ∧
    (requiredOk cfg = true → env.connectOk = false → (runMain cfg env).exitCode = 1) ∧
    (requiredOk cfg = true → env.connectOk = true →
      extract_all_retention_data env.wh (parseFilterArg cfg.database_filter)
        (parseFilterArg cfg.schema_filter) = Except.error () →
      (runMain cfg env).exitCode = 1) ∧
    (requiredOk cfg = true → env.connectOk = true →
      ∀ tables, extract_all_retention_data env.wh (parseFilterArg cfg.database_filter)
          (parseFilterArg cfg.schema_filter) = Except.ok tables →
        (runMain cfg env).exitCode = 0) := by
  refine ⟨fun h => ?_, fun h1 h2 => ?_, fun h1 h2 hex => ?_, fun h1 h2 tables hex => ?_⟩
  · simp [runMain, h]
  · simp [runMain, h1, h2]
  · simp [runMain, h1, h2, hex]
  · unfold runMain
    by_cases h3 : tables = []
    · simp [h1, h2, hex, h3]
    · by_cases h4 : cfg.dry_run = true
      · simp [h1, h2, hex, h3, h4]
      · simp [h1, h2, hex, h3, h4]

/-- Witness for C8: missing token exits 1, failed connection exits 1, a
fatal extraction error exits 1, a complete run exits 0. -/
theorem exit_code_policy_witness :
    (runMain cfgBad env0).exitCode = 1 ∧
      (runMain cfgLive envBad).exitCode = 1 ∧
      (runMain cfgLive envFatal).exitCode = 1 ∧
      (runMain cfgLive env0).exitCode = 0 :=
  ⟨(exit_code_policy cfgBad env0).1 (by decide),
   (exit_code_policy cfgLive envBad).2.1 (by decide) rfl,
   (exit_code_policy cfgLive envFatal).2.2.1 (by decide) rfl rfl,
   (exit_code_policy cfgLive env0).2.2.2 (by decide) rfl [tabNumericRetention] rfl⟩

/-- C9: the write `sync_table` issues targets the URN built from the fixed
platform snowflake, the lowercased dot-joined `database.schema.table`
name, and the configured environment; two tables whose name parts agree up
to letter case yield the same URN. -/
theorem urn_from_lowercased_name (emitOk : WriteCall → Bool) (env : String)
    (t u : SnowflakeTable)
    (hdb : pyLower t.database.toStr = pyLower u.database.toStr)
    (hsch : pyLower t.schema.toStr = pyLower u.schema.toStr)
    (htab : pyLower t.table.toStr = pyLower u.table.toStr) :
    ((sync_table emitOk env t).2).map WriteCall.urn =
      [make_dataset_urn "snowflake"
        (pyLower (t.database.toStr ++ "." ++ t.schema.toStr ++ "." ++ t.table.toStr)) env] ∧
    sync_table_urn env t = sync_table_urn env u := by
  constructor
  · simp [sync_table, sync_table_urn, dataset_name]
  · unfold sync_table_urn dataset_name
    rw [pyLower_append, pyLower_append, pyLower_append, pyLower_append,
      pyLower_append, pyLower_append, pyLower_append, pyLower_append]
    rw [hdb, hsch, htab]

/-- Witness for C9: an upper-case and a lower-case spelling of the same
table map to the same URN. -/
theorem urn_from_lowercased_name_witness :
    pyLower tabUpperCase.database.toStr = pyLower tabLowerCase.database.toStr ∧
      pyLower tabUpperCase.schema.toStr = pyLower tabLowerCase.schema.toStr ∧
      pyLower tabUpperCase.table.toStr = pyLower tabLowerCase.table.toStr ∧
      sync_table_urn "PROD" tabUpperCase = sync_table_urn "PROD" tabLowerCase :=
  ⟨by decide, by decide, by decide,
   (urn_from_lowercased_name (fun _ => true) "PROD" tabUpperCase tabLowerCase
      (by decide) (by decide) (by decide)).2⟩
